import Mathlib

/-!
Shallow embedding of `src/server.js` (an Express-based MCP bridge server
with GitHub OAuth) and proofs of the specification claims about it.

The server holds a single mutable variable `githubAccessToken`
(initially `null`).  Each HTTP handler is modelled as a pure function
from the current value of that variable (plus the request data and the
outcome of any outbound `fetch`) to an HTTP response, the new value of
the variable, and the list of outbound calls the handler issued.
-/

/-- JSON values, as produced by `await res.json()` and consumed by
`res.json(...)` / `JSON.stringify(...)` in the source. -/
inductive Json where
  | null : Json
  | bool : Bool → Json
  | num : Int → Json
  | str : String → Json
  | arr : List Json → Json
  | obj : List (String × Json) → Json
  deriving Repr

/-- Property access `data.k` on a parsed JSON value: `none` models the
JavaScript `undefined` result for a missing key or a non-object receiver.
`JSON.parse` keeps the last of duplicate keys, so lookup is last-wins. -/
def Json.get : Json → String → Option Json
  | .obj fields, k => lookupLast k fields
  | _, _ => none
where lookupLast (k : String) : List (String × Json) → Option Json
  | [] => none
  | (k', v) :: rest =>
    match lookupLast k rest with
    | some r => some r
    | none => if k' = k then some v else none

/-- JavaScript truthiness of a possibly-`undefined` JSON value, as tested
by `if (data.error)` and `if (!githubAccessToken)` in the source:
`undefined`, `null`, `false`, `0` and `""` are falsy, everything else
(including arrays and objects) is truthy. -/
def jsTruthyOpt : Option Json → Bool
  | none => false
  | some .null => false
  | some (.bool b) => b
  | some (.num n) => n != 0
  | some (.str s) => s != ""
  | some (.arr _) => true
  | some (.obj _) => true

/-- Falsiness of an optional string (a query parameter or environment
variable), as tested by `if (!code)` and `if (!clientId)`: absent or
empty is falsy. -/
def jsFalsyStr : Option String → Bool
  | none => true
  | some s => s == ""

/-- JavaScript `a || b` on possibly-`undefined` values, as in
`data.error_description || data.error`. -/
def jsOr (a b : Option Json) : Option Json :=
  if jsTruthyOpt a then a else b

mutual

/-- JavaScript string coercion of a JSON value, as performed by the
template literal `` `token ${githubAccessToken}` `` in the source. -/
def jsToStr : Json → String
  | .null => "null"
  | .bool true => "true"
  | .bool false => "false"
  | .num n => toString n
  | .str s => s
  | .arr xs => jsToStrList xs
  | .obj _ => "[object Object]"

/-- `Array.prototype.toString`: elements joined by `","`, with `null`
rendered as the empty string. -/
def jsToStrList : List Json → String
  | [] => ""
  | [x] => jsToStrElem x
  | x :: y :: rest => jsToStrElem x ++ "," ++ jsToStrList (y :: rest)

/-- One array element under `Array.prototype.toString`: `null` (and
`undefined`) render as empty, everything else by string coercion. -/
def jsToStrElem : Json → String
  | .null => ""
  | .bool true => "true"
  | .bool false => "false"
  | .num n => toString n
  | .str s => s
  | .arr xs => jsToStrList xs
  | .obj _ => "[object Object]"

end

/-- String coercion of the `githubAccessToken` variable itself.  Its
initial JavaScript value is `null`; the falsy check in each invocation
handler means the `none` branch is never interpolated into a header. -/
def jsToStrOpt : Option Json → String
  | none => "null"
  | some j => jsToStr j

/-- Escaping of a string for `JSON.stringify`. -/
def jsonEscapeChar (c : Char) : String :=
  if c = '"' then "\\\""
  else if c = '\\' then "\\\\"
  else if c = '\n' then "\\n"
  else if c = '\r' then "\\r"
  else if c = '\t' then "\\t"
  else String.singleton c

def jsonEscape (s : String) : String :=
  String.join (s.toList.map jsonEscapeChar)

mutual

/-- `JSON.stringify`, with object keys in insertion order as in
JavaScript. -/
def Json.stringify : Json → String
  | .null => "null"
  | .bool true => "true"
  | .bool false => "false"
  | .num n => toString n
  | .str s => "\"" ++ jsonEscape s ++ "\""
  | .arr xs => "[" ++ stringifyArr xs ++ "]"
  | .obj fs => "\x7b" ++ stringifyObj fs ++ "\x7d"

def Json.stringifyArr : List Json → String
  | [] => ""
  | [x] => Json.stringify x
  | x :: y :: rest => Json.stringify x ++ "," ++ Json.stringifyArr (y :: rest)

def Json.stringifyObj : List (String × Json) → String
  | [] => ""
  | [(k, v)] => "\"" ++ jsonEscape k ++ "\":" ++ Json.stringify v
  | (k, v) :: f :: rest =>
    "\"" ++ jsonEscape k ++ "\":" ++ Json.stringify v ++ "," ++ Json.stringifyObj (f :: rest)

end

/-- The body of an HTTP response: `res.send(text)`, `res.json(value)`,
or the SSE frame written with `res.write`. -/
inductive Body where
  | text : String → Body
  | json : Json → Body
  | sse : String → Body
  deriving Repr

/-- An HTTP response: status code, explicitly set headers (`res.set`),
and body. -/
structure Response where
  status : Nat
  headers : List (String × String)
  body : Body
  deriving Repr

/-- An outbound `fetch` call issued by a handler. -/
structure OutCall where
  url : String
  method : String
  headers : List (String × String)
  reqBody : Option String
  deriving Repr

/-- The outcome of `await fetch(...)` followed by `await res.json()`:
either a parsed JSON value, or an exception (network failure or
unparseable body), which the source catches in one `catch` block. -/
inductive FetchOutcome where
  | ok : Json → FetchOutcome
  | exn : FetchOutcome
  deriving Repr

/-- Result of running one handler: the HTTP response, the value of
`githubAccessToken` afterwards, and the outbound calls issued.  The
token is `none` when the variable is nullish (`null` initially, or the
stored `undefined` of a missing `access_token` field). -/
structure HandlerResult where
  response : Response
  githubAccessToken : Option Json
  calls : List OutCall
  deriving Repr

/-- The outbound POST to GitHub's token endpoint made by the callback
handler (lines 69-80 of `server.js`). -/
def tokenEndpointCall (clientId clientSecret code : String) : OutCall :=
  { url := "https://github.com/login/oauth/access_token"
    method := "POST"
    headers := [("Accept", "application/json"), ("Content-Type", "application/json")]
    reqBody := some (Json.stringify (.obj
      [("client_id", .str clientId), ("client_secret", .str clientSecret),
       ("code", .str code)])) }

/-- `GET /auth/github/callback` (lines 58-92 of `server.js`).
Arguments: current `githubAccessToken`, the `code` query parameter, the
`GITHUB_CLIENT_ID` / `GITHUB_CLIENT_SECRET` environment variables, and
the outcome of the token-endpoint exchange (consulted only when the
handler reaches the `fetch`).  In the configured branch `clientId` and
`clientSecret` are non-falsy, so the `getD ""` defaults never fire. -/
def callbackHandler (githubAccessToken : Option Json) (code : Option String)
    (clientId clientSecret : Option String) (upstream : FetchOutcome) :
    HandlerResult :=
  if jsFalsyStr code then
    { response := { status := 400, headers := [], body := .text "Missing OAuth code" }
      githubAccessToken
      calls := [] }
  else if jsFalsyStr clientId || jsFalsyStr clientSecret then
    { response :=
        { status := 500
          headers := []
          body := .text "GitHub client credentials not configured" }
      githubAccessToken
      calls := [] }
  else
    let call := tokenEndpointCall (clientId.getD "") (clientSecret.getD "") (code.getD "")
    match upstream with
    | .exn =>
      { response :=
          { status := 500
            headers := []
            body := .text "Failed to retrieve access token" }
        githubAccessToken
        calls := [call] }
    | .ok data =>
      if jsTruthyOpt (data.get "error") then
        -- `data.error_description || data.error` is truthy in this branch,
        -- so the `getD Json.null` default never fires.
        { response :=
            { status := 400
              headers := []
              body := .json (.obj [("error",
                (jsOr (data.get "error_description") (data.get "error")).getD Json.null)]) }
          githubAccessToken
          calls := [call] }
      else
        { response :=
            { status := 200
              headers := []
              body := .text "GitHub OAuth success! You can close this tab." }
          githubAccessToken := data.get "access_token"
          calls := [call] }

/-- The outbound GET a tool invocation makes, with the stored credential
interpolated into the authorization header (lines 190-195 / 215-220). -/
def githubApiCall (url : String) (githubAccessToken : Option Json) : OutCall :=
  { url
    method := "GET"
    headers := [("Authorization", "token " ++ jsToStrOpt githubAccessToken),
                ("User-Agent", "mcp-server")]
    reqBody := none }

/-- `POST /listRepos` (lines 185-202 of `server.js`). -/
def listReposHandler (githubAccessToken : Option Json) (upstream : FetchOutcome) :
    HandlerResult :=
  if !jsTruthyOpt githubAccessToken then
    { response :=
        { status := 401
          headers := []
          body := .json (.obj [("error", .str "GitHub OAuth required")]) }
      githubAccessToken
      calls := [] }
  else
    let call := githubApiCall "https://api.github.com/user/repos" githubAccessToken
    match upstream with
    | .exn =>
      { response :=
          { status := 500
            headers := []
            body := .json (.obj [("error", .str "Failed to fetch repositories")]) }
        githubAccessToken
        calls := [call] }
    | .ok repos =>
      { response := { status := 200, headers := [], body := .json repos }
        githubAccessToken
        calls := [call] }

/-- `POST /getUser` (lines 210-227 of `server.js`). -/
def getUserHandler (githubAccessToken : Option Json) (upstream : FetchOutcome) :
    HandlerResult :=
  if !jsTruthyOpt githubAccessToken then
    { response :=
        { status := 401
          headers := []
          body := .json (.obj [("error", .str "GitHub OAuth required")]) }
      githubAccessToken
      calls := [] }
  else
    let call := githubApiCall "https://api.github.com/user" githubAccessToken
    match upstream with
    | .exn =>
      { response :=
          { status := 500
            headers := []
            body := .json (.obj [("error", .str "Failed to fetch user")]) }
        githubAccessToken
        calls := [call] }
    | .ok user =>
      { response := { status := 200, headers := [], body := .json user }
        githubAccessToken
        calls := [call] }

/-- The `tools` object built inside the `/sse` handler (lines 111-128). -/
def sseTools : Json := .obj
  [("listRepos", .obj
     [("description", .str "List the authenticated user's GitHub repositories"),
      ("parameters", .obj
        [("type", .str "object"), ("properties", .obj []), ("required", .arr [])])]),
   ("getUser", .obj
     [("description", .str "Get the authenticated user's GitHub profile information"),
      ("parameters", .obj
        [("type", .str "object"), ("properties", .obj []), ("required", .arr [])])])]

/-- The payload emitted by `/sse` (lines 129-132). -/
def ssePayload : Json := .obj
  [("message", .str "GitHub tools ready"), ("tools", sseTools)]

/-- `GET /sse` (lines 102-134 of `server.js`).  The handler closes over
`githubAccessToken` but never reads it; the state is unchanged. -/
def sseHandler (_githubAccessToken : Option Json) : Response :=
  { status := 200
    headers := [("Content-Type", "text/event-stream"), ("Cache-Control", "no-cache"),
                ("Connection", "keep-alive")]
    body := .sse ("data: " ++ Json.stringify ssePayload ++ "\n\n") }

/-- The `tools` object built inside the `/` handler (lines 153-170 —
the source duplicates the construction verbatim). -/
def rootTools : Json := .obj
  [("listRepos", .obj
     [("description", .str "List the authenticated user's GitHub repositories"),
      ("parameters", .obj
        [("type", .str "object"), ("properties", .obj []), ("required", .arr [])])]),
   ("getUser", .obj
     [("description", .str "Get the authenticated user's GitHub profile information"),
      ("parameters", .obj
        [("type", .str "object"), ("properties", .obj []), ("required", .arr [])])])]

/-- The payload emitted by `/` (lines 171-174). -/
def rootPayload : Json := .obj
  [("message", .str "GitHub tools ready"), ("tools", rootTools)]

/-- `GET /` (lines 146-176 of `server.js`). -/
def rootHandler (_githubAccessToken : Option Json) : Response :=
  { status := 200
    headers := [("Content-Type", "text/event-stream"), ("Cache-Control", "no-cache"),
                ("Connection", "keep-alive")]
    body := .sse ("data: " ++ Json.stringify rootPayload ++ "\n\n") }

/-- Top-level keys of a JSON object (the advertised tool names). -/
def jsonObjKeys : Json → List String
  | .obj fs => fs.map Prod.fst
  | _ => []

/-- The POST invocation routes the server registers, paired with their
handlers (lines 185 and 210 of `server.js`). -/
def invocationRoutes : List (String × (Option Json → FetchOutcome → HandlerResult)) :=
  [("/listRepos", listReposHandler), ("/getUser", getUserHandler)]

/-- Left-cancellation for string concatenation, via the underlying
character lists. -/
theorem string_append_left_cancel {a b c : String} (h : a ++ b = a ++ c) : b = c := by
  have hd := congrArg String.data h
  simp only [String.data_append] at hd
  exact String.ext (List.append_cancel_left hd)

/-- C1: with no credential stored (`githubAccessToken` is nullish), both
tool invocation operations return 401 with body
`{error: "GitHub OAuth required"}`, issue no outbound call, and leave
the credential unchanged, whatever the (never consulted) upstream would
have answered. -/
theorem invocation_without_credential_401 (u : FetchOutcome) :
    listReposHandler none u =
      { response :=
          { status := 401
            headers := []
            body := .json (.obj [("error", .str "GitHub OAuth required")]) }
        githubAccessToken := none
        calls := [] }
  ∧ getUserHandler none u =
      { response :=
          { status := 401
            headers := []
            body := .json (.obj [("error", .str "GitHub OAuth required")]) }
        githubAccessToken := none
        calls := [] } :=
  ⟨rfl, rfl⟩

/-- C2: after two successful exchanges storing tokens `t1` then `t2`
(a GitHub access token is a non-empty string), every subsequent
invocation sends its outbound call with authorization header
`token t2`, and never `token t1` when the tokens differ. -/
theorem credential_last_writer_wins
    (st0 : Option Json) (code1 code2 cid cs : Option String)
    (data1 data2 : Json) (t1 t2 : String) (u : FetchOutcome)
    (hc1 : jsFalsyStr code1 = false) (hc2 : jsFalsyStr code2 = false)
    (hid : jsFalsyStr cid = false) (hcs : jsFalsyStr cs = false)
    (he1 : jsTruthyOpt (data1.get "error") = false)
    (he2 : jsTruthyOpt (data2.get "error") = false)
    (ht1 : data1.get "access_token" = some (.str t1))
    (ht2 : data2.get "access_token" = some (.str t2))
    (hne : t2 ≠ "") :
    ((listReposHandler ((callbackHandler
        ((callbackHandler st0 code1 cid cs (.ok data1)).githubAccessToken)
        code2 cid cs (.ok data2)).githubAccessToken) u).calls.map
          (fun c => c.headers.lookup "Authorization") = [some ("token " ++ t2)])
  ∧ ((getUserHandler ((callbackHandler
        ((callbackHandler st0 code1 cid cs (.ok data1)).githubAccessToken)
        code2 cid cs (.ok data2)).githubAccessToken) u).calls.map
          (fun c => c.headers.lookup "Authorization") = [some ("token " ++ t2)])
  ∧ (t1 ≠ t2 →
      ((listReposHandler ((callbackHandler
          ((callbackHandler st0 code1 cid cs (.ok data1)).githubAccessToken)
          code2 cid cs (.ok data2)).githubAccessToken) u).calls.map
            (fun c => c.headers.lookup "Authorization") ≠ [some ("token " ++ t1)])) := by
  have hst1 : (callbackHandler st0 code1 cid cs (.ok data1)).githubAccessToken
      = some (.str t1) := by
    simp [callbackHandler, hc1, hid, hcs, he1, ht1]
  have hst2 : (callbackHandler ((callbackHandler st0 code1 cid cs
      (.ok data1)).githubAccessToken) code2 cid cs (.ok data2)).githubAccessToken
      = some (.str t2) := by
    simp [callbackHandler, hc2, hid, hcs, he2, ht2]
  have htr : jsTruthyOpt (some (Json.str t2)) = true := by
    simp [jsTruthyOpt, hne]
  have hlist : (listReposHandler ((callbackHandler
      ((callbackHandler st0 code1 cid cs (.ok data1)).githubAccessToken)
      code2 cid cs (.ok data2)).githubAccessToken) u).calls.map
        (fun c => c.headers.lookup "Authorization") = [some ("token " ++ t2)] := by
    rw [hst2]
    cases u <;> simp [listReposHandler, githubApiCall, jsToStrOpt, jsToStr, htr, List.lookup]
  refine ⟨hlist, ?_, ?_⟩
  · rw [hst2]
    cases u <;> simp [getUserHandler, githubApiCall, jsToStrOpt, jsToStr, htr, List.lookup]
  · intro hnet hcontra
    rw [hlist] at hcontra
    simp only [List.cons.injEq, Option.some.injEq, and_true] at hcontra
    exact hnet (string_append_left_cancel hcontra).symm

/-- C2 witness: a concrete run — exchange storing `tokA`, exchange
storing `tokB`, then an invocation — sends `token tokB` and not
`token tokA`. -/
theorem credential_last_writer_wins_witness :
    ((listReposHandler ((callbackHandler
        ((callbackHandler none (some "c1") (some "id") (some "secret")
          (.ok (.obj [("access_token", .str "tokA")]))).githubAccessToken)
        (some "c2") (some "id") (some "secret")
        (.ok (.obj [("access_token", .str "tokB")]))).githubAccessToken)
        FetchOutcome.exn).calls.map
          (fun c => c.headers.lookup "Authorization") = [some ("token " ++ "tokB")])
  ∧ ((getUserHandler ((callbackHandler
        ((callbackHandler none (some "c1") (some "id") (some "secret")
          (.ok (.obj [("access_token", .str "tokA")]))).githubAccessToken)
        (some "c2") (some "id") (some "secret")
        (.ok (.obj [("access_token", .str "tokB")]))).githubAccessToken)
        FetchOutcome.exn).calls.map
          (fun c => c.headers.lookup "Authorization") = [some ("token " ++ "tokB")])
  ∧ ("tokA" ≠ "tokB" →
      ((listReposHandler ((callbackHandler
          ((callbackHandler none (some "c1") (some "id") (some "secret")
            (.ok (.obj [("access_token", .str "tokA")]))).githubAccessToken)
          (some "c2") (some "id") (some "secret")
          (.ok (.obj [("access_token", .str "tokB")]))).githubAccessToken)
          FetchOutcome.exn).calls.map
            (fun c => c.headers.lookup "Authorization") ≠ [some ("token " ++ "tokA")])) :=
  credential_last_writer_wins none (some "c1") (some "c2") (some "id") (some "secret")
    (.obj [("access_token", .str "tokA")]) (.obj [("access_token", .str "tokB")])
    "tokA" "tokB" FetchOutcome.exn
    rfl rfl rfl rfl rfl rfl rfl rfl (by decide)

/-- C3 counterexample: an upstream token-endpoint response whose JSON
body carries an `error` field with a falsy value (`{"error": ""}`) does
not yield 400: the callback answers 200 and overwrites a previously
stored credential with the missing `access_token` (nullish), refuting
the claim as stated for such responses. -/
theorem upstream_error_field_counterexample :
    (callbackHandler (some (.str "oldtok")) (some "c") (some "cid") (some "secret")
      (.ok (.obj [("error", .str "")]))).response.status = 200
  ∧ (callbackHandler (some (.str "oldtok")) (some "c") (some "cid") (some "secret")
      (.ok (.obj [("error", .str "")]))).githubAccessToken = none :=
  ⟨rfl, rfl⟩

/-- C3 (amended): for every upstream token-endpoint response whose JSON
body carries an `error` field with a truthy value (e.g. a non-empty
error code string), the callback returns 400 with body
`{error: <error_description, or the error code when the description is
absent or falsy>}`, and the stored credential is not mutated. -/
theorem upstream_error_yields_400_no_mutation
    (st : Option Json) (code cid cs : Option String) (data : Json)
    (hc : jsFalsyStr code = false) (hid : jsFalsyStr cid = false)
    (hcs : jsFalsyStr cs = false)
    (he : jsTruthyOpt (data.get "error") = true) :
    (callbackHandler st code cid cs (.ok data)).response.status = 400
  ∧ (callbackHandler st code cid cs (.ok data)).response.body =
      .json (.obj [("error",
        (jsOr (data.get "error_description") (data.get "error")).getD Json.null)])
  ∧ (callbackHandler st code cid cs (.ok data)).githubAccessToken = st := by
  simp [callbackHandler, hc, hid, hcs, he]

/-- C3 witness: with upstream body `{"error": "access_denied"}` the
callback answers 400 with body `{error: "access_denied"}` and keeps the
stored credential. -/
theorem upstream_error_yields_400_no_mutation_witness :
    (callbackHandler (some (.str "oldtok")) (some "c") (some "cid") (some "secret")
      (.ok (.obj [("error", .str "access_denied")]))).response.status = 400
  ∧ (callbackHandler (some (.str "oldtok")) (some "c") (some "cid") (some "secret")
      (.ok (.obj [("error", .str "access_denied")]))).response.body =
      .json (.obj [("error",
        (jsOr ((Json.obj [("error", .str "access_denied")]).get "error_description")
              ((Json.obj [("error", .str "access_denied")]).get "error")).getD Json.null)])
  ∧ (callbackHandler (some (.str "oldtok")) (some "c") (some "cid") (some "secret")
      (.ok (.obj [("error", .str "access_denied")]))).githubAccessToken =
      some (.str "oldtok") :=
  upstream_error_yields_400_no_mutation (some (.str "oldtok")) (some "c") (some "cid")
    (some "secret") (.obj [("error", .str "access_denied")]) rfl rfl rfl rfl

/-- C4: for any server state, the discovery responses of `GET /sse` and
`GET /` are identical — same status, same headers, and byte-identical
SSE body `data: <JSON>\n\n` around the same stringified payload. -/
theorem discovery_routes_identical (st : Option Json) :
    sseHandler st = rootHandler st
  ∧ (sseHandler st).body = .sse ("data: " ++ Json.stringify ssePayload ++ "\n\n")
  ∧ (rootHandler st).body = .sse ("data: " ++ Json.stringify rootPayload ++ "\n\n")
  ∧ (sseHandler st).headers = [("Content-Type", "text/event-stream"),
      ("Cache-Control", "no-cache"), ("Connection", "keep-alive")]
  ∧ (rootHandler st).headers = (sseHandler st).headers :=
  ⟨rfl, rfl, rfl, rfl, rfl⟩

/-- C5: the tool names advertised in the discovery manifest are exactly
the POST invocation routes the server registers (the route is `/` plus
the tool name), on both discovery entry points. -/
theorem advertised_tools_equal_invocation_routes :
    invocationRoutes.map Prod.fst = (jsonObjKeys sseTools).map (fun n => "/" ++ n)
  ∧ jsonObjKeys sseTools = ["listRepos", "getUser"]
  ∧ jsonObjKeys rootTools = jsonObjKeys sseTools :=
  ⟨rfl, rfl, rfl⟩

/-- C6: with a stored (truthy) credential, when the upstream call
succeeds and its body parses as JSON, both invocation operations return
that upstream JSON body verbatim with status 200. -/
theorem invocation_relays_upstream_body_verbatim
    (st : Option Json) (j : Json) (h : jsTruthyOpt st = true) :
    (listReposHandler st (.ok j)).response = { status := 200, headers := [], body := .json j }
  ∧ (getUserHandler st (.ok j)).response = { status := 200, headers := [], body := .json j } := by
  constructor <;> simp [listReposHandler, getUserHandler, h]

/-- C6 witness: with the credential `tok` stored and the upstream
answering `[{"id":1,"name":"repo-a"}]`, that exact array is relayed
with status 200. -/
theorem invocation_relays_upstream_body_verbatim_witness :
    (listReposHandler (some (.str "tok"))
      (.ok (.arr [.obj [("id", .num 1), ("name", .str "repo-a")]]))).response =
      { status := 200, headers := []
        body := .json (.arr [.obj [("id", .num 1), ("name", .str "repo-a")]]) }
  ∧ (getUserHandler (some (.str "tok"))
      (.ok (.arr [.obj [("id", .num 1), ("name", .str "repo-a")]]))).response =
      { status := 200, headers := []
        body := .json (.arr [.obj [("id", .num 1), ("name", .str "repo-a")]]) } :=
  invocation_relays_upstream_body_verbatim (some (.str "tok"))
    (.arr [.obj [("id", .num 1), ("name", .str "repo-a")]]) rfl

/-- C7: a callback request lacking the `code` query parameter is
answered 400 and the upstream token endpoint is called zero times,
whatever the stored state, configuration, or would-be upstream
outcome. -/
theorem callback_missing_code_400_no_call
    (st : Option Json) (cid cs : Option String) (u : FetchOutcome) :
    (callbackHandler st none cid cs u).response.status = 400
  ∧ (callbackHandler st none cid cs u).calls = []
  ∧ (callbackHandler st none cid cs u).githubAccessToken = st :=
  ⟨rfl, rfl, rfl⟩

/-- C8: an upstream token response with no `error` field and no
`access_token` field still yields 200 with the success message while
the nullish `access_token` overwrites the stored credential, so every
subsequent invocation answers 401. -/
theorem missing_access_token_breaks_auth
    (st0 : Option Json) (code cid cs : Option String) (data : Json) (u : FetchOutcome)
    (hc : jsFalsyStr code = false) (hid : jsFalsyStr cid = false)
    (hcs : jsFalsyStr cs = false)
    (he : jsTruthyOpt (data.get "error") = false)
    (ht : data.get "access_token" = none) :
    (callbackHandler st0 code cid cs (.ok data)).response.status = 200
  ∧ (callbackHandler st0 code cid cs (.ok data)).response.body =
      .text "GitHub OAuth success! You can close this tab."
  ∧ (callbackHandler st0 code cid cs (.ok data)).githubAccessToken = none
  ∧ (listReposHandler ((callbackHandler st0 code cid cs (.ok data)).githubAccessToken)
      u).response.status = 401
  ∧ (listReposHandler ((callbackHandler st0 code cid cs (.ok data)).githubAccessToken)
      u).response.body = .json (.obj [("error", .str "GitHub OAuth required")])
  ∧ (getUserHandler ((callbackHandler st0 code cid cs (.ok data)).githubAccessToken)
      u).response.status = 401 := by
  have hcb : (callbackHandler st0 code cid cs (.ok data)).githubAccessToken = none := by
    simp [callbackHandler, hc, hid, hcs, he, ht]
  refine ⟨?_, ?_, hcb, ?_, ?_, ?_⟩
  · simp [callbackHandler, hc, hid, hcs, he]
  · simp [callbackHandler, hc, hid, hcs, he]
  · rw [hcb]
    rfl
  · rw [hcb]
    rfl
  · rw [hcb]
    rfl

/-- C8 witness: a valid credential `oldtok` is stored; the upstream
answers `{}`; the callback reports success yet wipes the credential and
the next invocations answer 401. -/
theorem missing_access_token_breaks_auth_witness :
    (callbackHandler (some (.str "oldtok")) (some "c") (some "id") (some "secret")
      (.ok (.obj []))).response.status = 200
  ∧ (callbackHandler (some (.str "oldtok")) (some "c") (some "id") (some "secret")
      (.ok (.obj []))).response.body =
      .text "GitHub OAuth success! You can close this tab."
  ∧ (callbackHandler (some (.str "oldtok")) (some "c") (some "id") (some "secret")
      (.ok (.obj []))).githubAccessToken = none
  ∧ (listReposHandler ((callbackHandler (some (.str "oldtok")) (some "c") (some "id")
      (some "secret") (.ok (.obj []))).githubAccessToken)
      FetchOutcome.exn).response.status = 401
  ∧ (listReposHandler ((callbackHandler (some (.str "oldtok")) (some "c") (some "id")
      (some "secret") (.ok (.obj []))).githubAccessToken)
      FetchOutcome.exn).response.body = .json (.obj [("error", .str "GitHub OAuth required")])
  ∧ (getUserHandler ((callbackHandler (some (.str "oldtok")) (some "c") (some "id")
      (some "secret") (.ok (.obj []))).githubAccessToken)
      FetchOutcome.exn).response.status = 401 :=
  missing_access_token_breaks_auth (some (.str "oldtok")) (some "c") (some "id")
    (some "secret") (.obj []) FetchOutcome.exn rfl rfl rfl rfl rfl

/-- C9: the discovery response of `GET /sse` is a constant function of
the credential state: any two states (no credential, or any stored
value) produce the identical response, so discovery reveals nothing
about the credential. -/
theorem discovery_independent_of_credential (st1 st2 : Option Json) :
    sseHandler st1 = sseHandler st2 :=
  rfl

/-- C10: on the callback route the missing-code check precedes the
configuration check: without a `code` the answer is 400 (missing code)
even with the client identifier and secret unconfigured, and any 500
response requires a non-falsy `code`. -/
theorem missing_code_check_precedes_config_check :
    (∀ (st : Option Json) (u : FetchOutcome),
      (callbackHandler st none none none u).response.status = 400
      ∧ (callbackHandler st none none none u).response.body = .text "Missing OAuth code")
  ∧ (∀ (st : Option Json) (code cid cs : Option String) (u : FetchOutcome),
      (callbackHandler st code cid cs u).response.status = 500 →
        jsFalsyStr code = false) := by
  refine ⟨fun st u => ⟨rfl, rfl⟩, fun st code cid cs u h500 => ?_⟩
  cases hcode : jsFalsyStr code with
  | false => rfl
  | true => simp [callbackHandler, hcode] at h500

/-- C10 witness: with no `code` and nothing configured the callback
answers 400, and a concrete 500 (unconfigured secret, code present)
certifies that a 500 implies the code was present. -/
theorem missing_code_check_precedes_config_check_witness :
    ((callbackHandler none none none none FetchOutcome.exn).response.status = 400
      ∧ (callbackHandler none none none none FetchOutcome.exn).response.body =
          .text "Missing OAuth code")
  ∧ jsFalsyStr (some "abc") = false :=
  ⟨missing_code_check_precedes_config_check.1 none FetchOutcome.exn,
   missing_code_check_precedes_config_check.2 none (some "abc") none none
     FetchOutcome.exn rfl⟩
